import Mathlib

/-!
Verification of the Sprout appliance-pool task system
(`appliances/tasks.py`), shallowly embedded in Lean 4.

Database records become Lean structures, each Celery task becomes a pure
function from its inputs (the looked-up records, plus oracles standing for
the provider API answers) to an explicit result describing the DB writes,
retry scheduling and chain-control effects the Python performs.
-/

/-! ## Data model (from `appliances/models.py` via the spec, and `tasks.py` usage) -/

/-- Power states of an appliance (`Appliance.Power`). -/
inductive Power where
  | on
  | off
  | suspended
  | orphaned
  | unknown
deriving DecidableEq, Repr

/-- A `Template` record, as used by `tasks.py`:
provider/group foreign keys are ids, `exists_` mirrors the `exists` column. -/
structure Template where
  id : Nat
  provider : Nat
  template_group : Nat
  ready : Bool
  exists_ : Bool
deriving DecidableEq, Repr

/-- An `Appliance` record as used by `tasks.py`; `template` is the joined
template row (`appliance.template`), `appliance_pool` the pool id or null. -/
structure Appliance where
  id : Nat
  template : Template
  appliance_pool : Option Nat
  name : String
  ready : Bool
  power_state : Power
  marked_for_deletion : Bool
  leased_until : Option Nat
  status_changed : Nat
  ip_address : Option String
deriving DecidableEq, Repr

/-- A persisted `DelayedProvisionTask` row (pool id, lease minutes,
provider id to avoid; all nullable). -/
structure DelayedProvisionTask where
  pool : Option Nat
  lease_time : Option Nat
  provider_to_avoid : Option Nat
deriving DecidableEq, Repr

/-- A `Group` record: id plus the configured `template_pool_size`. -/
structure SproutGroup where
  id : Nat
  template_pool_size : Nat
deriving DecidableEq, Repr

/-! ## `retrieve_cfme_appliance_version` (tasks.py lines 28-43)

The Python tries three regexes in order over the template name and joins
the integer values of the captured groups with dots:
  `cfme-(\d)(\d)(\d)(\d)-`, `cfme-(\d)(\d)(\d)-(\d)-`, `cfme-(\d)(\d)(\d)(\d{2})-`.
Each matcher below recognises its pattern at the head of a character list;
`searchGroups` replays `re.search` by trying every start position. -/

/-- Numeric value of a decimal digit character, if it is one. -/
def digitVal (c : Char) : Option Nat :=
  if c.isDigit then some (c.toNat - 48) else none

/-- Pattern `cfme-(\d)(\d)(\d)(\d)-` anchored at the head of the list. -/
def matchV4 : List Char → Option (List Nat)
  | 'c' :: 'f' :: 'm' :: 'e' :: '-' :: a :: b :: c :: d :: '-' :: _ =>
    match digitVal a, digitVal b, digitVal c, digitVal d with
    | some x, some y, some z, some w => some [x, y, z, w]
    | _, _, _, _ => none
  | _ => none

/-- Pattern `cfme-(\d)(\d)(\d)-(\d)-` anchored at the head of the list. -/
def matchV3dash1 : List Char → Option (List Nat)
  | 'c' :: 'f' :: 'm' :: 'e' :: '-' :: a :: b :: c :: '-' :: d :: '-' :: _ =>
    match digitVal a, digitVal b, digitVal c, digitVal d with
    | some x, some y, some z, some w => some [x, y, z, w]
    | _, _, _, _ => none
  | _ => none

/-- Pattern `cfme-(\d)(\d)(\d)(\d\x7b2\x7d)-` anchored at the head of the list; the last
group captures two digits, whose `int` value is `10*d + e`. -/
def matchV5 : List Char → Option (List Nat)
  | 'c' :: 'f' :: 'm' :: 'e' :: '-' :: a :: b :: c :: d :: e :: '-' :: _ =>
    match digitVal a, digitVal b, digitVal c, digitVal d, digitVal e with
    | some x, some y, some z, some w, some v => some [x, y, z, 10 * w + v]
    | _, _, _, _, _ => none
  | _ => none

/-- Replay of `re.search`: try the anchored matcher at every start position, leftmost
match wins. -/
def searchGroups (p : List Char → Option (List Nat)) : List Char → Option (List Nat)
  | [] => p []
  | s :: rest =>
    match p (s :: rest) with
    | some g => some g
    | none => searchGroups p rest

/-- Python's `".".join(map(str, map(int, match.groups())))`. -/
def joinVersion (gs : List Nat) : String :=
  String.intercalate "." (gs.map (fun n => Nat.repr n))

/-- Function `retrieve_cfme_appliance_version`: first regex that matches anywhere in
the template name yields the dotted version; otherwise Python returns None. -/
def retrieve_cfme_appliance_version (template_name : String) : Option String :=
  let s := template_name.toList
  match searchGroups matchV4 s with
  | some gs => some (joinVersion gs)
  | none =>
    match searchGroups matchV3dash1 s with
    | some gs => some (joinVersion gs)
    | none =>
      match searchGroups matchV5 s with
      | some gs => some (joinVersion gs)
      | none => none


/-! ## `clone_template_to_appliance__clone_template` (tasks.py lines 485-551)

The task looks the appliance up (missing record aborts the chain), then
attempts `deploy_template` unless the VM already exists.  The deploy oracle
distinguishes the outcomes the Python code branches on: success, the typed
OpenStack `OverLimit` error, or a generic exception with a message. -/

/-- Outcome of the `deploy_template` provider call, as the task observes it. -/
inductive DeployResult where
  | ok
  | overLimit
  | error (message : String)
deriving DecidableEq, Repr

/-- Effects of one run of the clone-template task: whether the appliance row
was deleted, the `DelayedProvisionTask` persisted (if any), whether the
chain's pending callbacks were cleared, the scheduled retry
`(countdown, max_retries)` (if any), and whether the exception was re-raised
out of the task (which is what would trigger the chain's error handler). -/
structure CloneStepResult where
  applianceDeleted : Bool := false
  delayedTask : Option DelayedProvisionTask := none
  callbacksCleared : Bool := false
  retryScheduled : Option (Nat × Nat) := none
  reraised : Bool := false
deriving DecidableEq, Repr

/-- Python substring test on character lists (`needle in haystack`). -/
def listContainsSub (needle : List Char) : List Char → Bool
  | [] => needle.isEmpty
  | c :: rest => List.isPrefixOf needle (c :: rest) || listContainsSub needle rest

/-- Python's `needle in haystack` on strings. -/
def strContains (needle haystack : String) : Bool :=
  listContainsSub needle.toList haystack.toList

/-- ASCII lowercase of one character, as Python's `str.lower` acts on the
ASCII range. -/
def lowerChar (c : Char) : Char :=
  if 65 ≤ c.toNat ∧ c.toNat ≤ 90 then Char.ofNat (c.toNat + 32) else c

/-- Python's `message.lower()` (ASCII range). -/
def strLower (s : String) : String :=
  String.mk (s.toList.map lowerChar)

/-- The quota heuristic of the generic-exception handler, with Python's
operator precedence: `"quota" in m.lower() or ("limit" in m.lower() and pool)`. -/
def quotaHeuristic (message : String) (pool : Option Nat) : Bool :=
  strContains "quota" (strLower message) ||
    (strContains "limit" (strLower message) && pool.isSome)

/-- The common deferral block (lines 506-522 and 531-547): quit the chain,
delete the appliance row, persist a `DelayedProvisionTask` for the
appliance's pool avoiding the template's provider. -/
def deferToDelayedTask (appliance : Appliance) (lease_time_minutes : Option Nat) :
    CloneStepResult :=
  { applianceDeleted := true
    delayedTask := some
      { pool := appliance.appliance_pool
        lease_time := lease_time_minutes
        provider_to_avoid := some appliance.template.provider }
    callbacksCleared := true
    retryScheduled := none
    reraised := false }

/-- Task `clone_template_to_appliance__clone_template`.  `appliance` is the DB
lookup result (`none` = `ObjectDoesNotExist`), `vm_exists` the
`does_vm_exist` answer, `deploy` the `deploy_template` outcome. -/
def clone_template_to_appliance__clone_template (appliance : Option Appliance)
    (lease_time_minutes : Option Nat) (vm_exists : Bool) (deploy : DeployResult) :
    CloneStepResult :=
  match appliance with
  | none =>
    -- source objects are not present, terminating the chain
    { callbacksCleared := true }
  | some appliance =>
    match (if vm_exists then DeployResult.ok else deploy) with
    | DeployResult.ok => {}
    | DeployResult.overLimit =>
      match appliance.appliance_pool with
      | some _ => deferToDelayedTask appliance lease_time_minutes
      | none =>
        -- cannot put it aside, so re-raise and let the error handler run
        { reraised := true }
    | DeployResult.error message =>
      if quotaHeuristic message appliance.appliance_pool then
        deferToDelayedTask appliance lease_time_minutes
      else
        { retryScheduled := some (10, 5) }

/-! ## `clone_template_to_appliance__wait_present` (tasks.py lines 554-569) -/

/-- Effects of one run of the wait-present step.  `vm_check = none` means
`does_vm_exist` raised; `some b` is its answer. -/
structure WaitPresentResult where
  callbacksCleared : Bool := false
  retryScheduled : Option (Nat × Nat) := none
  reraised : Bool := false
deriving DecidableEq, Repr

/-- Task `clone_template_to_appliance__wait_present`. -/
def clone_template_to_appliance__wait_present (appliance : Option Appliance)
    (vm_check : Option Bool) : WaitPresentResult :=
  match appliance with
  | none =>
    -- source objects are not present, terminating the chain
    { callbacksCleared := true }
  | some _ =>
    match vm_check with
    | none => { retryScheduled := some (20, 30) }
    | some false => { retryScheduled := some (20, 30) }
    | some true => {}

/-! ## `kill_appliance_delete` (tasks.py lines 173-189) -/

/-- Outcome of `kill_appliance_delete`: normal deletion, a plain return
because the row was already gone (`ObjectDoesNotExist`), or a scheduled
retry after a provider error. -/
inductive KillDeleteOutcome where
  | deleted
  | returnedMissing
  | retried (countdown max_retries : Nat)
deriving DecidableEq, Repr

/-- Task `kill_appliance_delete`.  `appliance` is the lookup result and
`provider_ok` tells whether the provider-side existence check and delete
succeeded. -/
def kill_appliance_delete (appliance : Option Appliance) (provider_ok : Bool) :
    KillDeleteOutcome :=
  match appliance with
  | none => KillDeleteOutcome.returnedMissing
  | some _ =>
    if provider_ok then KillDeleteOutcome.deleted
    else KillDeleteOutcome.retried 10 5

/-! ## `kill_unused_appliances` (tasks.py lines 138-149)

The watchdog filters `marked_for_deletion=False, ready=True` and fires
`kill_appliance.delay` for each appliance whose non-null lease has passed. -/

/-- Ids of the appliances the sweep schedules `kill_appliance` for. -/
def kill_unused_appliances (appliances : List Appliance) (now : Nat) : List Nat :=
  ((appliances.filter fun a => !a.marked_for_deletion && a.ready).filterMap
    fun a =>
      match a.leased_until with
      | some t => if t ≤ now then some a.id else none
      | none => none)

/-! ## `free_appliance_shepherd` (tasks.py lines 749-817)

For one group the loop collects the unattached (`appliance_pool=None`)
appliances cloned from current-generation ready templates, sorts them by
`status_changed`, and then either provisions up to the deficit (one clone
per loop iteration, gated by free providers) or kills the surplus
`appliances[:len(appliances) - grp.template_pool_size]`. -/

/-- The sort key `lambda appliance: appliance.status_changed`. -/
def status_le (a b : Appliance) : Bool :=
  a.status_changed ≤ b.status_changed

/-- The appliances the shepherd kills for one group in one pass, given the
collected unattached current-generation appliances (lines 783, 804-807). -/
def free_appliance_shepherd_kills (grp : SproutGroup) (appliances : List Appliance) :
    List Appliance :=
  let sorted := appliances.mergeSort status_le
  if grp.template_pool_size < sorted.length then
    sorted.take (sorted.length - grp.template_pool_size)
  else []

/-- The provisioning loop body count (lines 784-803): in each of the
`template_pool_size - len(appliances)` iterations, templates on free
providers are re-filtered; an empty filter breaks out, otherwise one
appliance is saved and one `clone_template_to_appliance` task is started.

Modelled from the spec: `Provider.free` lives in `appliances/models.py`,
which is not among the sources; the spec describes it as the advisory
"non-busy capacity" flag refreshed by a periodic probe, so it is passed as
a per-provider boolean that is stable within one pass. -/
def shepherd_clone_loop (iterations : Nat) (ptfp : List Template)
    (provider_free : Nat → Bool) : Nat :=
  match iterations with
  | 0 => 0
  | n + 1 =>
    let tpl_free := ptfp.filter fun t => provider_free t.provider
    if tpl_free.isEmpty then 0
    else 1 + shepherd_clone_loop n ptfp provider_free

/-- Number of `clone_template_to_appliance` chains one shepherd pass starts
for a group below its target size (lines 776, 784-803).
`possible_templates` are the ready current-generation templates; the body
first narrows to those with `exists=True`. -/
def free_appliance_shepherd_spares (grp : SproutGroup)
    (possible_templates : List Template) (appliances : List Appliance)
    (provider_free : Nat → Bool) : Nat :=
  let ptfp := possible_templates.filter fun t => t.exists_
  if appliances.length < grp.template_pool_size && !ptfp.isEmpty then
    shepherd_clone_loop (grp.template_pool_size - appliances.length) ptfp provider_free
  else 0

/-! ## Power-state tasks and readiness (tasks.py lines 601-658, 820-843) -/

/-- Result of a power/readiness task run: the (possibly updated) appliance
row and the scheduled retry, if any. -/
structure PowerTaskResult where
  appliance : Option Appliance
  retryScheduled : Option (Nat × Nat) := none
deriving DecidableEq, Repr

/-- Task `wait_appliance_ready` (lines 820-843).  `web_ui_running` is the
`cfme.ipapp.is_web_ui_running()` oracle.  The task retries while the power
state is unknown or no IP is known; otherwise it commits `ready=True`
exactly when the web-UI check succeeds, else commits `ready=False` and
retries. -/
def wait_appliance_ready (appliance : Option Appliance) (web_ui_running : Bool) :
    PowerTaskResult :=
  match appliance with
  | none =>
    -- source object is not present, terminating
    { appliance := none }
  | some a =>
    if a.power_state = Power.unknown || a.ip_address.isNone then
      { appliance := some a, retryScheduled := some (20, 45) }
    else if web_ui_running then
      { appliance := some { a with ready := true } }
    else
      { appliance := some { a with ready := false }, retryScheduled := some (20, 45) }

/-- Task `appliance_power_off` (lines 601-630).  Oracles: `is_vm_stopped`,
`is_vm_suspended`, `in_steady_state`.  Only the stopped branch commits:
`power_state := OFF` and `ready := False` in one atomic transaction. -/
def appliance_power_off (appliance : Option Appliance)
    (is_stopped is_suspended in_steady : Bool) : PowerTaskResult :=
  match appliance with
  | none => { appliance := none }
  | some a =>
    if is_stopped then
      { appliance := some { a with power_state := Power.off, ready := false } }
    else if is_suspended then
      -- starts the VM to properly power it off later, then retries
      { appliance := some a, retryScheduled := some (20, 40) }
    else if !in_steady then
      { appliance := some a, retryScheduled := some (20, 40) }
    else
      -- issues stop_vm, then retries
      { appliance := some a, retryScheduled := some (20, 40) }

/-- Task `appliance_suspend` (lines 633-658).  Only the suspended branch commits:
`power_state := SUSPENDED` and `ready := False` in one atomic transaction. -/
def appliance_suspend (appliance : Option Appliance)
    (is_suspended in_steady : Bool) : PowerTaskResult :=
  match appliance with
  | none => { appliance := none }
  | some a =>
    if is_suspended then
      { appliance := some { a with power_state := Power.suspended, ready := false } }
    else if !in_steady then
      { appliance := some a, retryScheduled := some (20, 30) }
    else
      -- issues suspend_vm, then retries
      { appliance := some a, retryScheduled := some (20, 30) }

/-! ## Retry bounds of every `self.retry` site in tasks.py -/

/-- One `self.retry(..., countdown=..., max_retries=...)` call site. -/
structure RetrySpec where
  task : String
  countdown : Nat
  max_retries : Nat
deriving DecidableEq, Repr

/-- Every retry site in `tasks.py`, with its fixed delay (seconds) and
maximum attempt count, transcribed in source order. -/
def task_retry_specs : List RetrySpec :=
  [ { task := "kill_appliance_delete", countdown := 10, max_retries := 5 }
  , { task := "prepare_template_deploy", countdown := 10, max_retries := 5 }
  , { task := "prepare_template_configure", countdown := 10, max_retries := 5 }
  , { task := "prepare_template_network_setup", countdown := 10, max_retries := 5 }
  , { task := "prepare_template_poweroff", countdown := 10, max_retries := 5 }
  , { task := "prepare_template_finish", countdown := 10, max_retries := 5 }
  , { task := "prepare_template_delete_on_error", countdown := 10, max_retries := 5 }
  , { task := "apply_lease_times_after_pool_fulfilled", countdown := 30, max_retries := 50 }
  , { task := "clone_template_to_appliance__clone_template", countdown := 10, max_retries := 5 }
  , { task := "clone_template_to_appliance__wait_present", countdown := 20, max_retries := 30 }
  , { task := "appliance_power_on", countdown := 20, max_retries := 30 }
  , { task := "appliance_power_off", countdown := 20, max_retries := 40 }
  , { task := "appliance_suspend", countdown := 20, max_retries := 30 }
  , { task := "retrieve_appliance_ip", countdown := 30, max_retries := 20 }
  , { task := "wait_appliance_ready", countdown := 20, max_retries := 45 } ]

/-- The bounds the spec claims: 5 retries at 10 s for destructive/one-shot
operations, 30-50 retries at 20 s for state-polling operations. -/
def retry_bounds_claimed (r : RetrySpec) : Bool :=
  (r.countdown = 10 && r.max_retries = 5) ||
    (r.countdown = 20 && 30 ≤ r.max_retries && r.max_retries ≤ 50)

/-! ## Concrete fixtures used by witnesses and counterexamples -/

/-- A concrete template row. -/
def tplFixture : Template :=
  { id := 1, provider := 7, template_group := 2, ready := true, exists_ := true }

/-- A concrete appliance attached to pool 4, cloned from `tplFixture`. -/
def pooledApplianceFixture : Appliance :=
  { id := 10, template := tplFixture, appliance_pool := some 4
    name := "jdoe_appliance_140101_abcdef", ready := false
    power_state := Power.unknown, marked_for_deletion := false
    leased_until := none, status_changed := 0, ip_address := none }

/-- The same appliance unattached to any pool (the shepherd case). -/
def poollessApplianceFixture : Appliance :=
  { pooledApplianceFixture with appliance_pool := none }

/-- A not-ready appliance whose lease expired at time 0. -/
def expiredNotReadyFixture : Appliance :=
  { poollessApplianceFixture with ready := false, leased_until := some 0 }

/-- A ready appliance whose lease expired at time 3. -/
def expiredReadyFixture : Appliance :=
  { poollessApplianceFixture with ready := true, leased_until := some 3 }

/-- A pool of five unattached appliances with distinct status-change times. -/
def fiveAppliancesFixture : List Appliance :=
  [ { poollessApplianceFixture with id := 1, status_changed := 50 }
  , { poollessApplianceFixture with id := 2, status_changed := 10 }
  , { poollessApplianceFixture with id := 3, status_changed := 40 }
  , { poollessApplianceFixture with id := 4, status_changed := 20 }
  , { poollessApplianceFixture with id := 5, status_changed := 30 } ]

/-- An appliance with known power state, an IP address and `ready=False`. -/
def almostReadyFixture : Appliance :=
  { poollessApplianceFixture with
      power_state := Power.on, ip_address := some "10.11.12.13" }

/-! ## Theorems -/

/-- C3: the version-extraction rule maps the 4-digit form `cfme-5342-` to
`5.3.4.2` (first regex) and the 5-digit form `cfme-53101-` to `5.3.1.1`
(third regex, whose two-digit last group `01` has integer value 1). -/
theorem c3_version_extraction :
    retrieve_cfme_appliance_version "cfme-5342-0221" = some "5.3.4.2" ∧
    retrieve_cfme_appliance_version "cfme-53101-0221" = some "5.3.1.1" :=
  ⟨by decide, by decide⟩

/-- C1: when the clone step hits the typed OpenStack over-limit error and the
appliance belongs to a pool, the appliance row is deleted and a
`DelayedProvisionTask` for that same pool is persisted carrying the original
lease time and `provider_to_avoid` set to the provider of the appliance's
template; no retry is scheduled on the same provider, the chain is quit, and
the failure is not silently dropped (the deferral task records the demand). -/
theorem c1_overlimit_pooled_defers (a : Appliance) (p : Nat) (lease : Option Nat)
    (hp : a.appliance_pool = some p) :
    clone_template_to_appliance__clone_template (some a) lease false
        DeployResult.overLimit =
      { applianceDeleted := true
        delayedTask := some
          { pool := some p, lease_time := lease
            provider_to_avoid := some a.template.provider }
        callbacksCleared := true
        retryScheduled := none
        reraised := false } := by
  simp [clone_template_to_appliance__clone_template, deferToDelayedTask, hp]

/-- C1 witness: the theorem applied to a concrete pooled appliance. -/
theorem c1_overlimit_pooled_defers_witness :
    clone_template_to_appliance__clone_template (some pooledApplianceFixture)
        (some 60) false DeployResult.overLimit =
      { applianceDeleted := true
        delayedTask := some
          { pool := some 4, lease_time := some 60, provider_to_avoid := some 7 }
        callbacksCleared := true
        retryScheduled := none
        reraised := false } :=
  c1_overlimit_pooled_defers pooledApplianceFixture 4 (some 60) rfl

/-- C10: in the generic-exception fallback, Python's precedence makes the
condition `quota ∨ (limit ∧ pool)`: an appliance with no pool association
whose failure message contains "quota" (case-insensitively) still enters the
deferral branch — the row is deleted and a `DelayedProvisionTask` with a null
pool is built — while without "quota" (even with "limit") the pool-less case
goes to the bounded retry branch. -/
theorem c10_quota_keyword_poolless (a : Appliance) (msg : String)
    (lease : Option Nat) (hp : a.appliance_pool = none) :
    (strContains "quota" (strLower msg) = true →
      clone_template_to_appliance__clone_template (some a) lease false
          (DeployResult.error msg) =
        { applianceDeleted := true
          delayedTask := some
            { pool := none, lease_time := lease
              provider_to_avoid := some a.template.provider }
          callbacksCleared := true
          retryScheduled := none
          reraised := false }) ∧
    (strContains "quota" (strLower msg) = false →
      clone_template_to_appliance__clone_template (some a) lease false
          (DeployResult.error msg) =
        { retryScheduled := some (10, 5) }) := by
  constructor <;> intro h <;>
    simp [clone_template_to_appliance__clone_template, quotaHeuristic,
      deferToDelayedTask, hp, h]

/-- C10 witness: a pool-less appliance with an over-quota message is deferred
with a null-pool `DelayedProvisionTask`. -/
theorem c10_quota_keyword_poolless_witness :
    clone_template_to_appliance__clone_template (some poollessApplianceFixture)
        none false (DeployResult.error "Quota exceeded for instances") =
      { applianceDeleted := true
        delayedTask := some
          { pool := none, lease_time := none, provider_to_avoid := some 7 }
        callbacksCleared := true
        retryScheduled := none
        reraised := false } :=
  (c10_quota_keyword_poolless poollessApplianceFixture
    "Quota exceeded for instances" none rfl).1 (by decide)

/-- C5: when the target record has vanished (`ObjectDoesNotExist` on lookup),
both provisioning-chain steps abort silently: the pending chain callbacks are
cleared, no retry is scheduled, and nothing is re-raised, so the chain's
linked error handler is never invoked. -/
theorem c5_missing_record_silent_abort (lease : Option Nat) (ve : Bool)
    (d : DeployResult) (vc : Option Bool) :
    clone_template_to_appliance__clone_template none lease ve d =
      { applianceDeleted := false, delayedTask := none, callbacksCleared := true
        retryScheduled := none, reraised := false } ∧
    clone_template_to_appliance__wait_present none vc =
      { callbacksCleared := true, retryScheduled := none, reraised := false } :=
  ⟨rfl, rfl⟩

/-- C6: deleting an appliance whose row is already absent returns normally
(no unhandled error, no retry), so a second deletion is harmless. -/
theorem c6_kill_delete_idempotent (provider_ok : Bool) :
    kill_appliance_delete none provider_ok = KillDeleteOutcome.returnedMissing :=
  rfl

/-- C4 counterexample: the sweep filters on `ready=True`, so an appliance with
an expired lease but `ready=False` is NOT handed to `kill_appliance`, refuting
"regardless of the appliance's ready flag". -/
theorem c4_counterexample :
    expiredNotReadyFixture.leased_until = some 0 ∧
    expiredNotReadyFixture.marked_for_deletion = false ∧
    expiredNotReadyFixture.ready = false ∧
    kill_unused_appliances [expiredNotReadyFixture] 5 = [] := by
  decide

/-- C4 (amended): for every appliance with `ready=True` and
`marked_for_deletion=False` whose non-null lease has passed, one invocation of
`kill_unused_appliances` schedules `kill_appliance` on it. -/
theorem c4_expired_lease_killed (appliances : List Appliance) (now : Nat)
    (a : Appliance) (t : Nat) (ha : a ∈ appliances)
    (hmd : a.marked_for_deletion = false) (hr : a.ready = true)
    (hl : a.leased_until = some t) (ht : t ≤ now) :
    a.id ∈ kill_unused_appliances appliances now := by
  unfold kill_unused_appliances
  refine List.mem_filterMap.mpr ⟨a, ?_, ?_⟩
  · exact List.mem_filter.mpr ⟨ha, by simp [hmd, hr]⟩
  · simp [hl, ht]

/-- C4 witness: a concrete ready appliance with an expired lease is scheduled
for killing by the sweep. -/
theorem c4_expired_lease_killed_witness :
    expiredReadyFixture.id ∈ kill_unused_appliances [expiredReadyFixture] 5 :=
  c4_expired_lease_killed [expiredReadyFixture] 5 expiredReadyFixture 3
    (by decide) rfl rfl rfl (by decide)

/-- C9 counterexample: `retrieve_appliance_ip` retries with countdown 30 and
`max_retries` 20, matching neither the claimed 5-at-10s nor the claimed
30-to-50-at-20s bounds. -/
theorem c9_counterexample :
    ({ task := "retrieve_appliance_ip", countdown := 30, max_retries := 20 }
        : RetrySpec) ∈ task_retry_specs ∧
    retry_bounds_claimed
      { task := "retrieve_appliance_ip", countdown := 30, max_retries := 20 }
      = false := by
  decide

/-- C9 (amended): every retry site in tasks.py has a fixed delay and a bounded
maximum attempt count; destructive/one-shot operations use 5 retries at 10 s,
and state-polling operations use between 20 and 50 retries at a 20 s or 30 s
delay. -/
theorem c9_retry_bounds (r : RetrySpec) (hr : r ∈ task_retry_specs) :
    (r.countdown = 10 ∧ r.max_retries = 5) ∨
      ((r.countdown = 20 ∨ r.countdown = 30) ∧
        20 ≤ r.max_retries ∧ r.max_retries ≤ 50) := by
  revert r
  decide

/-- C9 witness: the amended bounds at the `kill_appliance_delete` retry site. -/
theorem c9_retry_bounds_witness :
    ((10 : Nat) = 10 ∧ (5 : Nat) = 5) ∨
      (((10 : Nat) = 20 ∨ (10 : Nat) = 30) ∧ 20 ≤ (5 : Nat) ∧ (5 : Nat) ≤ 50) :=
  c9_retry_bounds { task := "kill_appliance_delete", countdown := 10, max_retries := 5 }
    (by decide)

/-- In the shepherd clone loop, if some template sits on a free provider the
loop never breaks early and performs every iteration. -/
theorem shepherd_clone_loop_full (n : Nat) (ptfp : List Template)
    (provider_free : Nat → Bool)
    (h : (ptfp.filter fun t => provider_free t.provider).isEmpty = false) :
    shepherd_clone_loop n ptfp provider_free = n := by
  induction n with
  | zero => rfl
  | succ n ih =>
    simp only [shepherd_clone_loop, h, Bool.false_eq_true, if_false, ih]
    omega

/-- C7 counterexample: with target pool size 3, one unattached appliance and a
usable template on a free provider, a single shepherd pass starts 2 clone
chains, not at most 1. -/
theorem c7_counterexample :
    free_appliance_shepherd_spares { id := 2, template_pool_size := 3 }
        [tplFixture] [poollessApplianceFixture] (fun _ => true) = 2 ∧
    ¬ (free_appliance_shepherd_spares { id := 2, template_pool_size := 3 }
        [tplFixture] [poollessApplianceFixture] (fun _ => true) ≤ 1) := by
  constructor
  · rfl
  · decide

/-- C7 (amended): when the unattached-appliance count is below the group's
target pool size and some `exists=True` template sits on a free provider, one
shepherd pass starts clone chains one at a time up to the full deficit
(target size minus current count). -/
theorem c7_spares_fill_deficit (grp : SproutGroup) (pts : List Template)
    (apps : List Appliance) (provider_free : Nat → Bool)
    (hlt : apps.length < grp.template_pool_size)
    (hfree : ∃ t ∈ pts, t.exists_ = true ∧ provider_free t.provider = true) :
    free_appliance_shepherd_spares grp pts apps provider_free =
      grp.template_pool_size - apps.length := by
  obtain ⟨t, ht, hex, hfr⟩ := hfree
  have htf : t ∈ pts.filter fun t => t.exists_ := List.mem_filter.mpr ⟨ht, hex⟩
  have h1 : ((pts.filter fun t => t.exists_).isEmpty) = false := by
    rcases hpt : (pts.filter fun t => t.exists_) with _ | ⟨x, xs⟩
    · rw [hpt] at htf; cases htf
    · rw [hpt]; rfl
  have htf2 : t ∈ (pts.filter fun t => t.exists_).filter
      fun t => provider_free t.provider :=
    List.mem_filter.mpr ⟨htf, hfr⟩
  have h2 : (((pts.filter fun t => t.exists_).filter
      fun t => provider_free t.provider).isEmpty) = false := by
    rcases hpt : ((pts.filter fun t => t.exists_).filter
        fun t => provider_free t.provider) with _ | ⟨x, xs⟩
    · rw [hpt] at htf2; cases htf2
    · rw [hpt]; rfl
  simp only [free_appliance_shepherd_spares, h1, Bool.not_false, Bool.and_true,
    hlt, decide_eq_true_eq, if_true, decide_True]
  exact shepherd_clone_loop_full _ _ _ h2

/-- C7 witness: the amended statement at a concrete deficit of 2. -/
theorem c7_spares_fill_deficit_witness :
    free_appliance_shepherd_spares { id := 3, template_pool_size := 4 }
        [tplFixture] [poollessApplianceFixture, expiredReadyFixture]
        (fun _ => true) = 2 :=
  c7_spares_fill_deficit { id := 3, template_pool_size := 4 } [tplFixture]
    [poollessApplianceFixture, expiredReadyFixture] (fun _ => true)
    (by decide) ⟨tplFixture, by decide, rfl, rfl⟩

/-- The sort key is transitive. -/
theorem status_le_trans (a b c : Appliance) (hab : status_le a b = true)
    (hbc : status_le b c = true) : status_le a c = true := by
  simp only [status_le, decide_eq_true_eq] at *
  omega

/-- The sort key is total. -/
theorem status_le_total (a b : Appliance) :
    (status_le a b || status_le b a) = true := by
  simp only [status_le]
  rcases Nat.le_total a.status_changed b.status_changed with h | h <;> simp [h]

/-- C2: for a group with target pool size 3 and 5 unattached
current-generation appliances, one shepherd pass kills exactly 2 of them,
and every killed appliance is one of the 5 and is no younger (by
`status_changed`) than any appliance it spares. -/
theorem c2_shepherd_kills_two_oldest (grp : SproutGroup)
    (appliances : List Appliance) (h3 : grp.template_pool_size = 3)
    (h5 : appliances.length = 5) :
    (free_appliance_shepherd_kills grp appliances).length = 2 ∧
    ∀ a ∈ free_appliance_shepherd_kills grp appliances,
      a ∈ appliances ∧
        ∀ b ∈ appliances,
          b ∈ free_appliance_shepherd_kills grp appliances ∨
            a.status_changed ≤ b.status_changed := by
  have hms_len : (appliances.mergeSort status_le).length = 5 := by
    rw [List.length_mergeSort]; exact h5
  have hkills : free_appliance_shepherd_kills grp appliances =
      (appliances.mergeSort status_le).take 2 := by
    simp only [free_appliance_shepherd_kills, hms_len, h3]
    norm_num
  constructor
  · rw [hkills, List.length_take, hms_len]
    omega
  · intro a ha
    rw [hkills] at ha
    have hams : a ∈ appliances.mergeSort status_le := List.mem_of_mem_take ha
    refine ⟨List.mem_mergeSort.mp hams, ?_⟩
    intro b hb
    by_cases hbk : b ∈ free_appliance_shepherd_kills grp appliances
    · exact Or.inl hbk
    · right
      have hbms : b ∈ appliances.mergeSort status_le := List.mem_mergeSort.mpr hb
      have hbdrop : b ∈ (appliances.mergeSort status_le).drop 2 := by
        rcases List.mem_append.mp
            (show b ∈ (appliances.mergeSort status_le).take 2 ++
                (appliances.mergeSort status_le).drop 2 by
              rw [List.take_append_drop]; exact hbms) with h | h
        · exact absurd (by rw [hkills]; exact h) hbk
        · exact h
      have hpair : (appliances.mergeSort status_le).Pairwise
          (fun x y => status_le x y) :=
        List.sorted_mergeSort status_le_trans status_le_total appliances
      rw [← List.take_append_drop 2 (appliances.mergeSort status_le)] at hpair
      have hrel := (List.pairwise_append.mp hpair).2.2 a ha b hbdrop
      simpa [status_le] using hrel

/-- C2 witness: five concrete appliances against a pool size of 3. -/
theorem c2_shepherd_kills_two_oldest_witness :
    (free_appliance_shepherd_kills { id := 9, template_pool_size := 3 }
      fiveAppliancesFixture).length = 2 :=
  (c2_shepherd_kills_two_oldest { id := 9, template_pool_size := 3 }
    fiveAppliancesFixture rfl rfl).1

/-- C8: the readiness/power invariant as the three cited operations maintain
it: `wait_appliance_ready` flips `ready` to True only when the web-UI oracle
answered positively, and the committing branches of `appliance_power_off` and
`appliance_suspend` write the non-on power state and `ready=False` in the
same atomic update. -/
theorem c8_ready_power_invariant :
    (∀ (a a2 : Appliance) (web_ui_running : Bool),
        (wait_appliance_ready (some a) web_ui_running).appliance = some a2 →
        a2.ready = true → a.ready = false → web_ui_running = true) ∧
    (∀ (a : Appliance) (is_suspended in_steady : Bool),
        appliance_power_off (some a) true is_suspended in_steady =
          { appliance := some { a with power_state := Power.off, ready := false }
            retryScheduled := none }) ∧
    (∀ (a : Appliance) (in_steady : Bool),
        appliance_suspend (some a) true in_steady =
          { appliance := some
              { a with power_state := Power.suspended, ready := false }
            retryScheduled := none }) := by
  refine ⟨?_, ?_, ?_⟩
  · intro a a2 web hres hr2 hr1
    simp only [wait_appliance_ready] at hres
    split at hres
    · replace hres : some a = some a2 := hres
      injection hres with h
      rw [h] at hr1
      rw [hr1] at hr2
      simp at hr2
    · split at hres
      · assumption
      · replace hres : some { a with ready := false } = some a2 := hres
        injection hres with h
        rw [← h] at hr2
        simp at hr2
  · intro a is_suspended in_steady
    rfl
  · intro a in_steady
    rfl

/-- C8 witness: the three conjuncts applied at a concrete appliance. -/
theorem c8_ready_power_invariant_witness :
    true = true ∧
    appliance_power_off (some almostReadyFixture) true false false =
      { appliance := some
          { almostReadyFixture with power_state := Power.off, ready := false }
        retryScheduled := none } ∧
    appliance_suspend (some almostReadyFixture) true false =
      { appliance := some
          { almostReadyFixture with power_state := Power.suspended, ready := false }
        retryScheduled := none } :=
  ⟨c8_ready_power_invariant.1 almostReadyFixture
      { almostReadyFixture with ready := true } true (by decide) rfl rfl,
    c8_ready_power_invariant.2.1 almostReadyFixture false false,
    c8_ready_power_invariant.2.2 almostReadyFixture false⟩
